import Mathlib

/-!
Verification model of `app.py` (SmartDiago — IntelliDoctor).

The source is a single Streamlit script.  We embed the parts of it that the
properties below are about:

* Python/JSON values stored in `st.session_state` fields (`PyVal`);
* the completion-call wrapper `call_grok_chat` (lines 46–74), with the HTTP
  response supplied as an explicit input — the outbound request (prompt
  messages, model name, temperature) never influences the control flow that
  follows the response, so it is not part of the model;
* the button handlers that mutate session state: the four generation
  handlers, the five timeline-commit buttons, and the report handler;
* the PDF renderer `make_pdf_report` (lines 76–115), modelled as the ordered
  list of text lines written to the document (layout coordinates and fonts
  carry no information relevant to the properties);
* the top-level API-key check (lines 151–152), where `show_api_warning`
  calls `st.stop()` and thereby ends the script run.
-/

/-- A parsed Python/JSON value, as produced by `resp.json()` and stored in
`st.session_state` fields.  Dictionaries are association lists with string
keys (JSON object keys are strings). -/
inductive PyVal where
| str (s : String)
| num (n : Int)
| bool (b : Bool)
| null
| list (xs : List PyVal)
| dict (kvs : List (String × PyVal))

/-- Python truthiness (`bool(v)`): empty strings, zero, `False`, `None` and
empty containers are falsy. -/
def pyTruthy : PyVal → Bool
| PyVal.str s => !s.isEmpty
| PyVal.num n => n != 0
| PyVal.bool b => b
| PyVal.null => false
| PyVal.list [] => false
| PyVal.list (_ :: _) => true
| PyVal.dict [] => false
| PyVal.dict (_ :: _) => true

/-- Python `a or b` on values: `a` if truthy, else `b`. -/
def pyOr (a b : PyVal) : PyVal := if pyTruthy a then a else b

/-- JSON string escaping for the serializer. -/
def jsonEscapeChar (c : Char) : String :=
  if c = '"' then "\\\""
  else if c = '\\' then "\\\\"
  else if c = '\n' then "\\n"
  else String.singleton c

/-- Quote a string as a JSON string literal. -/
def jsonQuote (s : String) : String :=
  "\"" ++ String.join (s.data.map jsonEscapeChar) ++ "\""

mutual

/-- Serializer for parsed JSON values, modelling `json.dumps(data, indent=2)`
in the fallback branch of `call_grok_chat` (line 74).  The exact whitespace
layout of the dump is immaterial to every property proved below (only which
branch produced the result matters). -/
def dumps : PyVal → String
| PyVal.str s => jsonQuote s
| PyVal.num n => toString n
| PyVal.bool b => cond b ("true") ("false")
| PyVal.null => "null"
| PyVal.list xs => "[" ++ dumpsElems xs ++ "]"
| PyVal.dict kvs => "\x7b" ++ dumpsFields kvs ++ "\x7d"

/-- Serialize list elements, comma-separated. -/
def dumpsElems : List PyVal → String
| [] => ""
| [x] => dumps x
| x :: xs => dumps x ++ ", " ++ dumpsElems xs

/-- Serialize object fields, comma-separated. -/
def dumpsFields : List (String × PyVal) → String
| [] => ""
| [(k, v)] => jsonQuote k ++ ": " ++ dumps v
| (k, v) :: kvs => jsonQuote k ++ ": " ++ dumps v ++ ", " ++ dumpsFields kvs

end

/-- Python subscription `v[n]` with a non-negative integer index: lists index
into their elements (`IndexError` → failure), strings yield a one-character
string (Python string indexing), everything else raises (`TypeError`, or
`KeyError` for a dict, since JSON object keys are strings, never ints). -/
def pyIndexNat : PyVal → Nat → Option PyVal
| PyVal.list xs, n => xs.get? n
| PyVal.str s, n => (s.data.get? n).map (fun c => PyVal.str (String.singleton c))
| _, _ => none

/-- Python subscription `v[k]` with a string key: dict lookup
(`KeyError` → failure), everything else raises `TypeError`. -/
def pyKey : PyVal → String → Option PyVal
| PyVal.dict kvs, k => (kvs.find? (fun kv => kv.1 = k)).map (fun kv => kv.2)
| _, _ => none

/-- The traversal `data["choices"][0]["message"]["content"]` from line 71 of
the source; `none` models the raised exception caught by the surrounding
`try`. -/
def extractContent (data : PyVal) : Option PyVal :=
  ((((pyKey data ("choices")).bind (fun c => pyIndexNat c 0)).bind
      (fun m => pyKey m ("message"))).bind
    (fun x => pyKey x ("content")))

/-- Modelled from the spec: the success response "contains the expected
single text field" at `choices[0].message.content` — the traversal succeeds
AND the value found there is text. -/
def extractTextField (data : PyVal) : Option String :=
  match extractContent data with
  | some (PyVal.str s) => some s
  | _ => none

/-- Truthiness of the `API_KEY` module variable (`not API_KEY`): missing
(`None`) or empty-string keys are falsy. -/
def keyTruthy : Option String → Bool
| none => false
| some s => !s.isEmpty

/-- An HTTP response from the completion service as seen by the script:
status code, raw body text (`resp.text`), and the result of `resp.json()`
(`none` when the body is not valid JSON, in which case `resp.json()`
raises). -/
structure HttpResp where
  status : Nat
  text : String
  jsonBody : Option PyVal

/-- `call_grok_chat` (lines 46–74): raises (`Except.error`) when the key is
missing, on a non-200 status (including the server body in the message), or
when the body is not JSON; on a 200 JSON body it returns
`choices[0].message.content` when that traversal succeeds — whatever value
is there — and otherwise falls back to `json.dumps(data, indent=2)`. -/
def call_grok_chat (apiKey : Option String) (resp : HttpResp) : Except String PyVal :=
  if !keyTruthy apiKey then
    Except.error ("Missing GROQ_API_KEY. See README / app instructions.")
  else if resp.status ≠ 200 then
    Except.error ("API error " ++ toString resp.status ++ ": " ++ resp.text)
  else
    match resp.jsonBody with
    | none => Except.error ("response body is not valid JSON")
    | some data =>
      match extractContent data with
      | some v => Except.ok v
      | none => Except.ok (PyVal.str (dumps data))

/-- A message shown to the operator, mirroring the four Streamlit message
widgets the script uses (`st.info`, `st.success`, `st.warning`,
`st.error`). -/
inductive UiMsg where
| info (text : String)
| success (text : String)
| warning (text : String)
| error (text : String)

/-- One timeline item, a dict `{"title": ..., "content": ...}` appended by
the dashboard buttons (titles are always string literals in the source; the
content is whatever value the source stage holds). -/
structure Entry where
  title : String
  content : PyVal

/-- One element of `st.session_state.uploaded_results`:
`{"name": ..., "bytes": ..., "type": ...}`. -/
structure Upload where
  name : String
  bytes : List Nat
  type : String

/-- The `st.session_state` fields of the script (lines 123–148 plus
`last_report`, which is created by the report handler at line 335). -/
structure SessionState where
  patient : List (String × PyVal)
  symptoms_text : PyVal
  initial_diag : PyVal
  doctor_notes : PyVal
  test_recs : PyVal
  uploaded_results : List Upload
  final_diag : PyVal
  final_prescription : PyVal
  followup : PyVal
  timeline : List Entry
  last_report : Option (List String)

/-- The fresh-session initialization of lines 123–148. -/
def initState : SessionState :=
  { patient := [("Name", PyVal.str ("")), ("Age", PyVal.num 30),
                ("Gender", PyVal.str ("Male")), ("Location", PyVal.str ("")),
                ("Past History", PyVal.str (""))],
    symptoms_text := PyVal.str (""),
    initial_diag := PyVal.str (""),
    doctor_notes := PyVal.str (""),
    test_recs := PyVal.str (""),
    uploaded_results := [],
    final_diag := PyVal.str (""),
    final_prescription := PyVal.str (""),
    followup := PyVal.str (""),
    timeline := [],
    last_report := none }

/-- The five buttons that append to `st.session_state.timeline`: the four
dashboard "Add" buttons (lines 276–288) and "Save final prescription to
timeline" (lines 318–320). -/
inductive CommitAct where
| addInitial
| addNotes
| addTests
| addUploads
| saveFinal

/-- The uploads summary string built at line 286:
`"\n".join(f"{u['name']} ({u['type']})" for u in uploaded_results)`. -/
def uploadsSummary (us : List Upload) : String :=
  String.intercalate "\n" (us.map (fun u => u.name ++ " (" ++ u.type ++ ")"))

/-- The entry each commit button appends, built from the session state at the
moment of the click.  Each button substitutes a fallback for a falsy source
value: `or "N/A"` on the three stage buttons, `or "None"` on the uploads
summary, and `final_prescription or final_diag` on the save-final button. -/
def commitEntry (s : SessionState) : CommitAct → Entry
| CommitAct.addInitial =>
    { title := "Initial AI Diagnostic", content := pyOr s.initial_diag (PyVal.str ("N/A")) }
| CommitAct.addNotes =>
    { title := "Doctor Notes", content := pyOr s.doctor_notes (PyVal.str ("N/A")) }
| CommitAct.addTests =>
    { title := "Test & Radiology Recommendations", content := pyOr s.test_recs (PyVal.str ("N/A")) }
| CommitAct.addUploads =>
    { title := "Uploaded Results", content := pyOr (PyVal.str (uploadsSummary s.uploaded_results)) (PyVal.str ("None")) }
| CommitAct.saveFinal =>
    { title := "Final Diagnostic & Prescription", content := pyOr s.final_prescription s.final_diag }

/-- Effect of one commit button: `st.session_state.timeline.append(...)`. -/
def applyCommit (s : SessionState) (a : CommitAct) : SessionState :=
  { s with timeline := s.timeline ++ [commitEntry s a] }

/-- A sequence of commit-button clicks, in click order. -/
def runCommits (s : SessionState) (acts : List CommitAct) : SessionState :=
  acts.foldl applyCommit s

/-- Modelled from the spec: the "source stage's current value" each commit
button reads (for the uploads button, the joined summary string; for the
save-final button, the final-prescription field). -/
def commitSource (s : SessionState) : CommitAct → PyVal
| CommitAct.addInitial => s.initial_diag
| CommitAct.addNotes => s.doctor_notes
| CommitAct.addTests => s.test_recs
| CommitAct.addUploads => PyVal.str (uploadsSummary s.uploaded_results)
| CommitAct.saveFinal => s.final_prescription

/-- The stage slots an operator or a generation handler can overwrite. -/
inductive StageField where
| symptoms
| initialDiag
| doctorNotes
| testRecs
| finalDiag
| finalPrescription
| followupPlan

/-- Overwrite one stage slot (a text-area edit or a generated result being
stored). -/
def setStage (s : SessionState) (f : StageField) (v : PyVal) : SessionState :=
  match f with
  | StageField.symptoms => { s with symptoms_text := v }
  | StageField.initialDiag => { s with initial_diag := v }
  | StageField.doctorNotes => { s with doctor_notes := v }
  | StageField.testRecs => { s with test_recs := v }
  | StageField.finalDiag => { s with final_diag := v }
  | StageField.finalPrescription => { s with final_prescription := v }
  | StageField.followupPlan => { s with followup := v }

/-- The "2) Get initial diagnostic (AI)" handler (lines 193–212): on success
the result is stored in `initial_diag`; on any raised error the state is left
as it was and the failure is shown with `st.error`. -/
def initialDiagHandler (s : SessionState) (apiKey : Option String) (resp : HttpResp) :
    SessionState × List UiMsg :=
  match call_grok_chat apiKey resp with
  | Except.ok out =>
      ({ s with initial_diag := out },
       [UiMsg.info ("Calling Grok for initial diagnostic..."),
        UiMsg.success ("Initial diagnostic generated.")])
  | Except.error e =>
      (s, [UiMsg.info ("Calling Grok for initial diagnostic..."),
           UiMsg.error ("Error calling Grok API: " ++ e)])

/-- The "Generate test & radiology recommendations" handler (lines 227–243):
when both `symptoms_text` and `initial_diag` are falsy it only warns and
skips the call; otherwise the call result is stored in `test_recs` on
success and the state is left untouched on error. -/
def testRecsHandler (s : SessionState) (apiKey : Option String) (resp : HttpResp) :
    SessionState × List UiMsg :=
  if !pyTruthy s.symptoms_text && !pyTruthy s.initial_diag then
    (s, [UiMsg.warning ("Please provide symptoms and run initial diagnostic first.")])
  else
    match call_grok_chat apiKey resp with
    | Except.ok tr =>
        ({ s with test_recs := tr },
         [UiMsg.success ("Test & radiology recommendations generated.")])
    | Except.error e =>
        (s, [UiMsg.error ("Error calling Grok API: " ++ e)])

/-- The "Generate final diagnostic (AI)" handler (lines 292–309). -/
def finalDiagHandler (s : SessionState) (apiKey : Option String) (resp : HttpResp) :
    SessionState × List UiMsg :=
  match call_grok_chat apiKey resp with
  | Except.ok out =>
      ({ s with final_diag := out }, [UiMsg.success ("Final diagnostic generated.")])
  | Except.error e =>
      (s, [UiMsg.error ("Error calling Grok API: " ++ e)])

/-- The "Generate follow-up plan (AI)" handler (lines 344–357). -/
def followupHandler (s : SessionState) (apiKey : Option String) (resp : HttpResp) :
    SessionState × List UiMsg :=
  match call_grok_chat apiKey resp with
  | Except.ok out =>
      ({ s with followup := out }, [UiMsg.success ("Follow-up plan generated.")])
  | Except.error e =>
      (s, [UiMsg.error ("Error calling Grok API: " ++ e)])

/-- Python `str(v)` as used when a stored value reaches document text.
Strings pass through; other values are rendered (containers via the JSON
shape, which is adequate for the properties below, none of which inspect the
rendered text of non-string values). -/
def pyStr : PyVal → String
| PyVal.str s => s
| PyVal.num n => toString n
| PyVal.bool b => cond b ("True") ("False")
| PyVal.null => "None"
| PyVal.list xs => dumps (PyVal.list xs)
| PyVal.dict kvs => dumps (PyVal.dict kvs)

/-- `make_pdf_report` (lines 76–115), modelled as the ordered list of text
lines written into the document: the title cell, the `Generated:` timestamp
cell, the patient block, one title/content pair per timeline entry, and — if
any uploads exist — the `Uploaded Files:` block.  The wall-clock timestamp
(`datetime.now()`) is supplied as the explicit input `now`. -/
def make_pdf_report (patient : List (String × PyVal)) (timeline : List Entry)
    (uploaded_files : List Upload) (now : String) : List String :=
  ["SmartDiago — Patient Report", "Generated: " ++ now, "Patient Information:"]
  ++ patient.map (fun kv => kv.1 ++ ": " ++ pyStr kv.2)
  ++ (timeline.map (fun e => [e.title, pyStr e.content])).flatten
  ++ (if uploaded_files.isEmpty then []
      else "Uploaded Files:" :: uploaded_files.map (fun f => "- " ++ f.name ++ " (" ++ f.type ++ ")"))

/-- The auto-built timeline of lines 327–332, synthesized when the report
button finds the timeline empty: one entry per fixed stage, in the fixed
source order, from the current stage values (the final entry falls back from
`final_prescription` to `final_diag`, mirroring line 331). -/
def autoTimeline (s : SessionState) : List Entry :=
  [{ title := "Initial AI Diagnostic", content := s.initial_diag },
   { title := "Doctor Notes", content := s.doctor_notes },
   { title := "Tests & Radiology", content := s.test_recs },
   { title := "Final Diagnostic & Prescription", content := pyOr s.final_prescription s.final_diag }]

/-- The "Generate & preview report (PDF)" handler (lines 324–336): when the
timeline is falsy (empty) it is replaced by the auto-built one; the PDF is
rendered from a copy of the patient dict, the (possibly just-assigned)
timeline and the uploads, and stored in `last_report`. -/
def reportHandler (s : SessionState) (now : String) : SessionState × List UiMsg :=
  let s1 := if s.timeline.isEmpty then { s with timeline := autoTimeline s } else s
  let pdf := make_pdf_report s1.patient s1.timeline s1.uploaded_results now
  ({ s1 with last_report := some pdf },
   [UiMsg.success ("PDF report generated. Use the download button below.")])

/-- Which top-level sections of the script produce their UI on one run. -/
structure RenderedUI where
  headerShown : Bool
  apiWarning : Bool
  profileSection : Bool
  symptomsSection : Bool
  dashboardSection : Bool
  reportSection : Bool
  timelinePreview : Bool
deriving DecidableEq

/-- One top-level script run with respect to the API-key check of lines
151–152: the header (lines 28–33) and session initialization always run;
when `API_KEY` is falsy, `show_api_warning` (lines 42–44) shows one
`st.error` and calls `st.stop()`, which ends the run before any further
section — otherwise every section renders. -/
def scriptRun (apiKey : Option String) : RenderedUI :=
  if keyTruthy apiKey then
    { headerShown := true, apiWarning := false, profileSection := true,
      symptomsSection := true, dashboardSection := true, reportSection := true,
      timelinePreview := true }
  else
    { headerShown := true, apiWarning := true, profileSection := false,
      symptomsSection := false, dashboardSection := false, reportSection := false,
      timelinePreview := false }

/-! ## Helper lemmas -/

/-- Commit buttons read only stage fields, which they never modify. -/
theorem commitEntry_applyCommit (s : SessionState) (a b : CommitAct) :
    commitEntry (applyCommit s a) b = commitEntry s b := by
  cases b <;> rfl

/-- Changing only the timeline and the stored report leaves every commit
button's entry unchanged. -/
theorem commitEntry_set_timeline (s : SessionState) (tl : List Entry)
    (lr : Option (List String)) (a : CommitAct) :
    commitEntry { s with timeline := tl, last_report := lr } a = commitEntry s a := by
  cases a <;> rfl

/-- Stage edits never touch the timeline. -/
theorem setStage_timeline (s : SessionState) (f : StageField) (v : PyVal) :
    (setStage s f v).timeline = s.timeline := by
  cases f <;> rfl

/-- Folding a click sequence of commit buttons appends, in click order, the
entries determined by the starting state. -/
theorem runCommits_timeline (acts : List CommitAct) (s : SessionState) :
    (runCommits s acts).timeline = s.timeline ++ acts.map (commitEntry s) := by
  induction acts generalizing s with
  | nil => simp [runCommits]
  | cons a as ih =>
    have hstep : runCommits s (a :: as) = runCommits (applyCommit s a) as := rfl
    have hmap : as.map (commitEntry (applyCommit s a)) = as.map (commitEntry s) :=
      List.map_congr_left (fun b _ => commitEntry_applyCommit s a b)
    rw [hstep, ih, hmap]
    simp [applyCommit]

/-- Any non-200 response makes `call_grok_chat` raise, whatever the key. -/
theorem call_error_of_non200 (apiKey : Option String) (resp : HttpResp)
    (h : resp.status ≠ 200) :
    ∃ e, call_grok_chat apiKey resp = Except.error e := by
  cases hk : keyTruthy apiKey <;> simp [call_grok_chat, hk, h]

/-! ## Claim theorems -/

/-- Claim C1: for every sequence of commit-button clicks, the timeline's
entry order equals the click order (FIFO), its entry count equals the click
count, clicking the same button twice in the same state produces two
identical entries, and no entry is ever deduplicated, merged, reordered or
deleted (the final timeline is exactly the starting timeline followed by one
appended entry per click). -/
theorem timeline_commits_fifo (s : SessionState) (acts : List CommitAct) :
    (runCommits s acts).timeline = s.timeline ++ acts.map (commitEntry s) ∧
    (runCommits s acts).timeline.length = s.timeline.length + acts.length ∧
    ∀ a : CommitAct, (runCommits s [a, a]).timeline =
      s.timeline ++ [commitEntry s a, commitEntry s a] := by
  refine ⟨runCommits_timeline acts s, ?_, ?_⟩
  · rw [runCommits_timeline acts s]; simp
  · intro a; rw [runCommits_timeline [a, a] s]; rfl

/-- Claim C2: for every stage-generation handler, a failing completion call
(non-success HTTP status, raised as an error) leaves the session state —
in particular the stage's stored content — exactly as it was, and the
failure is surfaced to the operator as an error message. -/
theorem generation_failure_preserves_state (s : SessionState) (apiKey : Option String)
    (resp : HttpResp) (h : resp.status ≠ 200) :
    (initialDiagHandler s apiKey resp).1 = s ∧
    (testRecsHandler s apiKey resp).1 = s ∧
    (finalDiagHandler s apiKey resp).1 = s ∧
    (followupHandler s apiKey resp).1 = s ∧
    ∃ e, (initialDiagHandler s apiKey resp).2 =
      [UiMsg.info ("Calling Grok for initial diagnostic..."),
       UiMsg.error ("Error calling Grok API: " ++ e)] := by
  obtain ⟨e, hc⟩ := call_error_of_non200 apiKey resp h
  refine ⟨?_, ?_, ?_, ?_, ⟨e, ?_⟩⟩
  · simp [initialDiagHandler, hc]
  · cases hg : (!pyTruthy s.symptoms_text && !pyTruthy s.initial_diag) <;>
      simp [testRecsHandler, hg, hc]
  · simp [finalDiagHandler, hc]
  · simp [followupHandler, hc]
  · simp [initialDiagHandler, hc]

/-- Witness for C2 at the spec's concrete scenario: a fresh session and an
HTTP 401 response with body `invalid key`. -/
theorem generation_failure_preserves_state_witness :
    (initialDiagHandler initState (some ("k")) { status := 401, text := "invalid key", jsonBody := none }).1 = initState ∧
    (testRecsHandler initState (some ("k")) { status := 401, text := "invalid key", jsonBody := none }).1 = initState ∧
    (finalDiagHandler initState (some ("k")) { status := 401, text := "invalid key", jsonBody := none }).1 = initState ∧
    (followupHandler initState (some ("k")) { status := 401, text := "invalid key", jsonBody := none }).1 = initState ∧
    ∃ e, (initialDiagHandler initState (some ("k")) { status := 401, text := "invalid key", jsonBody := none }).2 =
      [UiMsg.info ("Calling Grok for initial diagnostic..."),
       UiMsg.error ("Error calling Grok API: " ++ e)] :=
  generation_failure_preserves_state initState (some ("k"))
    { status := 401, text := "invalid key", jsonBody := none } (by decide)

/-- Claim C3: when the report button runs on an empty timeline, exactly one
entry per fixed stage is synthesized, in the fixed order (initial
diagnostic, doctor notes, tests, final diagnosis/prescription), from the
stage values the store currently holds; on a non-empty timeline nothing is
synthesized. -/
theorem report_autopopulates_iff_empty (s : SessionState) (now : String) :
    (s.timeline = [] →
      (reportHandler s now).1.timeline =
        [{ title := "Initial AI Diagnostic", content := s.initial_diag },
         { title := "Doctor Notes", content := s.doctor_notes },
         { title := "Tests & Radiology", content := s.test_recs },
         { title := "Final Diagnostic & Prescription",
           content := pyOr s.final_prescription s.final_diag }]) ∧
    (s.timeline ≠ [] → (reportHandler s now).1.timeline = s.timeline) := by
  constructor
  · intro h; simp [reportHandler, h, autoTimeline]
  · intro h; simp [reportHandler, h]

/-- Witness for C3: a fresh session auto-populates to the four fixed
entries; a session with one committed entry is left alone. -/
theorem report_autopopulates_iff_empty_witness :
    (reportHandler initState ("2024-01-01 00:00:00")).1.timeline =
      [{ title := "Initial AI Diagnostic", content := PyVal.str ("") },
       { title := "Doctor Notes", content := PyVal.str ("") },
       { title := "Tests & Radiology", content := PyVal.str ("") },
       { title := "Final Diagnostic & Prescription", content := PyVal.str ("") }] ∧
    (reportHandler { initState with timeline := [{ title := "T", content := PyVal.str ("c") }] }
        ("2024-01-01 00:00:00")).1.timeline =
      [{ title := "T", content := PyVal.str ("c") }] :=
  ⟨(report_autopopulates_iff_empty initState ("2024-01-01 00:00:00")).1 rfl,
   (report_autopopulates_iff_empty _ ("2024-01-01 00:00:00")).2 (by simp)⟩

/-- Claim C4: a committed timeline entry is a frozen snapshot — overwriting
any stage slot after the commit leaves the whole timeline, and in particular
the just-committed entry, unchanged. -/
theorem committed_entry_snapshot (s : SessionState) (a : CommitAct)
    (f : StageField) (v : PyVal) :
    (setStage (applyCommit s a) f v).timeline = s.timeline ++ [commitEntry s a] ∧
    (setStage (applyCommit s a) f v).timeline[s.timeline.length]? = some (commitEntry s a) := by
  have ht : (setStage (applyCommit s a) f v).timeline = s.timeline ++ [commitEntry s a] := by
    rw [setStage_timeline]; rfl
  exact ⟨ht, by rw [ht]; exact List.getElem?_concat_length s.timeline (commitEntry s a)⟩

/-- Counterexample to claim C5: with no credential configured the run shows
the warning but, because `show_api_warning` ends the run with `st.stop()`,
none of the read-only sections (profile entry, symptoms/notes/uploads,
timeline commits, report rendering, timeline preview) is rendered — the
read-only workflow is not usable. -/
theorem missing_key_blocks_readonly_ui :
    (scriptRun none).apiWarning = true ∧
    (scriptRun none).profileSection = false ∧
    (scriptRun none).symptomsSection = false ∧
    (scriptRun none).dashboardSection = false ∧
    (scriptRun none).reportSection = false ∧
    (scriptRun none).timelinePreview = false := by
  refine ⟨rfl, rfl, rfl, rfl, rfl, rfl⟩

/-- Claim C5 (amended): when no API credential is configured (missing or
empty key), the failure is surfaced once as an error message and the script
run stops immediately without crashing; every section after the check —
generation and read-only alike — goes unrendered for that run. -/
theorem missing_key_stops_script (apiKey : Option String) (h : keyTruthy apiKey = false) :
    scriptRun apiKey =
      { headerShown := true, apiWarning := true, profileSection := false,
        symptomsSection := false, dashboardSection := false, reportSection := false,
        timelinePreview := false } := by
  simp [scriptRun, h]

/-- Witness for the amended C5 at the concrete missing-key input. -/
theorem missing_key_stops_script_witness :
    scriptRun none =
      { headerShown := true, apiWarning := true, profileSection := false,
        symptomsSection := false, dashboardSection := false, reportSection := false,
        timelinePreview := false } :=
  missing_key_stops_script none rfl

/-- A 200-response body whose traversal `choices[0].message.content`
succeeds but finds a number instead of text. -/
def nontextBody : PyVal :=
  PyVal.dict [("choices", PyVal.list [PyVal.dict [("message", PyVal.dict [("content", PyVal.num 42)])]])]

/-- Counterexample to claim C6: this 200 response does not contain the
expected single text field at `choices[0].message.content` (the value there
is the number 42), yet `call_grok_chat` returns that number as the result —
not the serialized response body the claim promises. -/
theorem nontext_content_not_dumped :
    extractTextField nontextBody = none ∧
    call_grok_chat (some ("k")) { status := 200, text := "", jsonBody := some nontextBody }
      = Except.ok (PyVal.num 42) ∧
    Except.ok (PyVal.num 42) ≠ (Except.ok (PyVal.str (dumps nontextBody)) : Except String PyVal) := by
  refine ⟨rfl, rfl, ?_⟩
  intro hcontra
  injection hcontra with h1
  exact PyVal.noConfusion h1

/-- Claim C6 (amended): for every successful (HTTP 200) JSON response where
the traversal `choices[0].message.content` fails (missing key, missing
index, or a non-subscriptable intermediate), the call does not lose its
effect: the parsed response body, re-serialized, is returned as the call's
result for the operator to inspect.  (When the traversal succeeds but finds
a non-text value, that value — not the body dump — is returned.) -/
theorem malformed_response_returns_dump (apiKey : Option String) (resp : HttpResp)
    (data : PyVal) (hk : keyTruthy apiKey = true) (hs : resp.status = 200)
    (hb : resp.jsonBody = some data) (he : extractContent data = none) :
    call_grok_chat apiKey resp = Except.ok (PyVal.str (dumps data)) := by
  simp [call_grok_chat, hk, hs, hb, he]

/-- Witness for the amended C6: a 200 response whose body is an empty JSON
object falls back to the serialized body. -/
theorem malformed_response_returns_dump_witness :
    call_grok_chat (some ("k")) { status := 200, text := "", jsonBody := some (PyVal.dict []) }
      = Except.ok (PyVal.str (dumps (PyVal.dict []))) :=
  malformed_response_returns_dump (some ("k"))
    { status := 200, text := "", jsonBody := some (PyVal.dict []) }
    (PyVal.dict []) rfl rfl rfl rfl

/-- Counterexample to claim C7: in a fresh session the initial-diagnostic
stage holds the empty string, yet the dashboard commit appends an entry
whose content is the placeholder `N/A`, not the stage's current (empty)
value. -/
theorem commit_empty_stage_uses_placeholder :
    initState.initial_diag = PyVal.str ("") ∧
    (applyCommit initState CommitAct.addInitial).timeline =
      [{ title := "Initial AI Diagnostic", content := PyVal.str ("N/A") }] ∧
    PyVal.str ("N/A") ≠ PyVal.str ("") := by
  refine ⟨rfl, rfl, ?_⟩
  intro h
  injection h with h1
  exact absurd h1 (by decide)

/-- For each commit button, the value substituted when the source stage's
value is falsy: `N/A` for the three stage buttons, `None` for the uploads
summary, and the final diagnostic for the save-final button. -/
def commitFallback (s : SessionState) : CommitAct → PyVal
| CommitAct.addInitial => PyVal.str ("N/A")
| CommitAct.addNotes => PyVal.str ("N/A")
| CommitAct.addTests => PyVal.str ("N/A")
| CommitAct.addUploads => PyVal.str ("None")
| CommitAct.saveFinal => s.final_diag

/-- Claim C7 (amended): every explicit commit appends exactly one timeline
entry; its content equals the source stage's current value whenever that
value is non-empty (truthy), while an empty (falsy) value is replaced by the
button's fallback — `N/A` for the dashboard stage buttons, `None` for the
uploads summary, and the final diagnostic for the final-prescription
commit. -/
theorem commit_appends_snapshot (s : SessionState) (a : CommitAct) :
    (applyCommit s a).timeline = s.timeline ++ [commitEntry s a] ∧
    (pyTruthy (commitSource s a) = true → (commitEntry s a).content = commitSource s a) ∧
    (pyTruthy (commitSource s a) = false → (commitEntry s a).content = commitFallback s a) := by
  refine ⟨rfl, ?_, ?_⟩ <;> intro h <;>
    cases a <;> simp [commitSource] at h <;>
      simp [commitEntry, commitSource, commitFallback, pyOr, h]

/-- Witness for the amended C7: a non-empty stage commits its own value, an
empty stage commits the placeholder. -/
theorem commit_appends_snapshot_witness :
    (commitEntry { initState with initial_diag := PyVal.str ("flu") } CommitAct.addInitial).content
      = PyVal.str ("flu") ∧
    (commitEntry initState CommitAct.addInitial).content = PyVal.str ("N/A") :=
  ⟨(commit_appends_snapshot { initState with initial_diag := PyVal.str ("flu") }
      CommitAct.addInitial).2.1 (by decide),
   (commit_appends_snapshot initState CommitAct.addInitial).2.2 (by decide)⟩

/-- Claim C8: the test-recommendation handler skips the external call and
only shows a warning exactly when both the symptoms text and the initial
diagnostic are empty; with at least one of them non-empty the handler
proceeds into the call branch. -/
theorem testrecs_warn_iff_deps_empty (s : SessionState) (apiKey : Option String)
    (resp : HttpResp) (a b : String)
    (h1 : s.symptoms_text = PyVal.str a) (h2 : s.initial_diag = PyVal.str b) :
    (testRecsHandler s apiKey resp =
      (s, [UiMsg.warning ("Please provide symptoms and run initial diagnostic first.")])) ↔
    (a = "" ∧ b = "") := by
  constructor
  · intro hEq
    cases hg : (!pyTruthy s.symptoms_text && !pyTruthy s.initial_diag) with
    | true =>
      rw [h1, h2] at hg
      simp [pyTruthy, String.isEmpty_iff] at hg
      exact hg
    | false =>
      exfalso
      rw [testRecsHandler, hg] at hEq
      simp only [Bool.false_eq_true, if_false] at hEq
      cases hc : call_grok_chat apiKey resp with
      | ok tr => rw [hc] at hEq; simp at hEq
      | error e => rw [hc] at hEq; simp at hEq
  · rintro ⟨ha, hb⟩
    have hg : (!pyTruthy s.symptoms_text && !pyTruthy s.initial_diag) = true := by
      rw [h1, h2, ha, hb]; rfl
    rw [testRecsHandler, hg]
    simp

/-- Witness for C8 at a fresh session (both dependencies empty): the handler
warns and skips. -/
theorem testrecs_warn_iff_deps_empty_witness :
    testRecsHandler initState none { status := 200, text := "", jsonBody := none } =
      (initState, [UiMsg.warning ("Please provide symptoms and run initial diagnostic first.")]) :=
  (testrecs_warn_iff_deps_empty initState none
    { status := 200, text := "", jsonBody := none } ("") ("") rfl rfl).mpr ⟨rfl, rfl⟩

/-- Claim C9: the report renderer is a pure function of its inputs — two
renders of identical patient record, timeline and uploads produce documents
of the same length that agree on every line except (at most) line 1, the
`Generated:` timestamp line; determinism and non-mutation hold by the
functional embedding (the source only reads its arguments). -/
theorem make_pdf_report_timestamp_only (p : List (String × PyVal)) (tl : List Entry)
    (up : List Upload) (t1 t2 : String) :
    (make_pdf_report p tl up t1).length = (make_pdf_report p tl up t2).length ∧
    (make_pdf_report p tl up t1).get? 1 = some ("Generated: " ++ t1) ∧
    ∀ i, i ≠ 1 → (make_pdf_report p tl up t1).get? i = (make_pdf_report p tl up t2).get? i := by
  refine ⟨?_, rfl, ?_⟩
  · simp [make_pdf_report]
  · intro i hi
    match i with
    | 0 => rfl
    | 1 => exact absurd rfl hi
    | (n + 2) => rfl

/-- Witness for C9: two renders of an empty session differing only in
timestamp have equal length and agree on line 0. -/
theorem make_pdf_report_timestamp_only_witness :
    (make_pdf_report [] [] [] ("a")).length = (make_pdf_report [] [] [] ("b")).length ∧
    (make_pdf_report [] [] [] ("a")).get? 0 = (make_pdf_report [] [] [] ("b")).get? 0 :=
  ⟨(make_pdf_report_timestamp_only [] [] [] ("a") ("b")).1,
   (make_pdf_report_timestamp_only [] [] [] ("a") ("b")).2.2 0 (by decide)⟩

/-- Claim C10: the report action's auto-population is not a pure synthesis:
on an empty timeline the four synthesized entries are stored back into the
session's timeline, which is thereafter non-empty, and every later commit
appends after those four entries. -/
theorem report_autopopulate_persists (s : SessionState) (now : String)
    (acts : List CommitAct) (h : s.timeline = []) :
    (reportHandler s now).1.timeline = autoTimeline s ∧
    (runCommits (reportHandler s now).1 acts).timeline =
      autoTimeline s ++ acts.map (commitEntry s) ∧
    (runCommits (reportHandler s now).1 acts).timeline ≠ [] := by
  have hrep : (reportHandler s now).1 =
      { s with timeline := autoTimeline s,
               last_report := some (make_pdf_report s.patient (autoTimeline s) s.uploaded_results now) } := by
    simp [reportHandler, h]
  have hmap : acts.map (commitEntry (reportHandler s now).1) = acts.map (commitEntry s) := by
    rw [hrep]
    exact List.map_congr_left (fun b _ => commitEntry_set_timeline s _ _ b)
  have htl : (runCommits (reportHandler s now).1 acts).timeline =
      autoTimeline s ++ acts.map (commitEntry s) := by
    rw [runCommits_timeline, hmap, hrep]
  refine ⟨by rw [hrep], htl, ?_⟩
  rw [htl]
  simp [autoTimeline]

/-- Witness for C10: a fresh session, one report click, then one commit. -/
theorem report_autopopulate_persists_witness :
    (reportHandler initState ("2024-01-01 00:00:00")).1.timeline = autoTimeline initState ∧
    (runCommits (reportHandler initState ("2024-01-01 00:00:00")).1 [CommitAct.addNotes]).timeline =
      autoTimeline initState ++ [CommitAct.addNotes].map (commitEntry initState) ∧
    (runCommits (reportHandler initState ("2024-01-01 00:00:00")).1 [CommitAct.addNotes]).timeline ≠ [] :=
  report_autopopulate_persists initState ("2024-01-01 00:00:00") [CommitAct.addNotes] rfl
